import Mathlib

/-!
Verification of the GharSathi rental-marketplace backend.

The definitions below are a shallow embedding of the Express/Mongoose
controllers of the repository: controllers become pure functions from an
explicit database value (and request data) to an HTTP-style result paired
with the updated database.  JavaScript truthiness on optional request
fields is modelled by `strTruthy`/`numTruthy`; Mongoose schema validation
is modelled by explicit error-list functions; a syntactically malformed
Mongo ObjectId is modelled by `RawId.malformed` (operations that touch the
store with such an id raise a CastError, which each controller's catch
block translates per its own branches).
-/

namespace GharSathi

/-- An HTTP-style controller result: either a success with a status code and
payload, or an error with a status code and message. -/
inductive HResult (α : Type) where
  | ok (code : Nat) (data : α)
  | err (code : Nat) (message : String)
deriving DecidableEq, Repr

/-- A request-supplied id: either a syntactically valid ObjectId (modelled as
a natural number) or a malformed string that makes Mongoose raise a
CastError. -/
inductive RawId where
  | valid (n : Nat)
  | malformed (s : String)
deriving DecidableEq, Repr

/-- A user record (`User.model.js`); `password` stores the bcrypt hash. -/
structure User where
  id : Nat
  name : String
  email : String
  password : String
  role : String
deriving DecidableEq, Repr

/-- A listing record (`listing.model.js`). -/
structure Listing where
  title : String
  description : String
  price : Int
  location : String
  latitude : Option Int
  longitude : Option Int
  type : String
  images : List String
  ownerId : Nat
  isApproved : Bool
  createdAt : Nat
deriving DecidableEq, Repr

/-- A booking record (`booking.model.js`). -/
structure Booking where
  listingId : Nat
  tenantId : Nat
  ownerId : Nat
  status : String
  message : Option String
  createdAt : Nat
deriving DecidableEq, Repr

/-- The document store: the three collections, keyed by ObjectId. -/
structure DB where
  users : List User
  listings : List (Nat × Listing)
  bookings : List (Nat × Booking)
deriving DecidableEq, Repr

/-- Lower-casing of a string (JS `toLowerCase` / the schema `lowercase`
setter), written by structural recursion over the character list so that it
reduces inside the kernel. -/
def toLowerStr (s : String) : String := ⟨s.data.map Char.toLower⟩

/-- Whitespace trimming at both ends (JS `trim` / the schema `trim`
setter), written structurally over the character list. -/
def trimStr (s : String) : String :=
  ⟨((s.data.dropWhile Char.isWhitespace).reverse.dropWhile Char.isWhitespace).reverse⟩

/-- Accumulator pass of `splitOnChar`. -/
def splitOnCharAux (sep : Char) : List Char → List Char → List (List Char)
  | acc, [] => [acc.reverse]
  | acc, c :: t =>
    if c == sep then acc.reverse :: splitOnCharAux sep [] t
    else splitOnCharAux sep (c :: acc) t

/-- Split a string at every occurrence of `sep` (JS `split(sep)` for a
one-character separator), written structurally over the character list. -/
def splitOnChar (sep : Char) (s : String) : List (List Char) :=
  splitOnCharAux sep [] s.data

/-- JavaScript truthiness of an optional string body field: `undefined` and
the empty string are falsy. -/
def strTruthy : Option String → Bool
  | none => false
  | some s => !(s == "")

/-- JavaScript truthiness of an optional numeric body field: `undefined` and
`0` are falsy. -/
def numTruthy : Option Int → Bool
  | none => false
  | some n => !(n == 0)

/-- Replace the booking stored under `id` (models `booking.save()`). -/
def DB.saveBooking (db : DB) (id : Nat) (b : Booking) : DB :=
  { db with bookings := db.bookings.map (fun p => if p.1 = id then (id, b) else p) }

/-- Replace the listing stored under `id` (models `listing.save()` /
`findByIdAndUpdate`). -/
def DB.setListing (db : DB) (id : Nat) (l : Listing) : DB :=
  { db with listings := db.listings.map (fun p => if p.1 = id then (id, l) else p) }

/-- Remove the listing stored under `id` (models `findByIdAndDelete`). -/
def DB.removeListing (db : DB) (id : Nat) : DB :=
  { db with listings := db.listings.filter (fun p => !(p.1 == id)) }

/-- Models `Booking.findOne({ _id: id, ownerId })`: the booking under `id`
provided its `ownerId` matches, `none` otherwise. -/
def Booking.findOwned (db : DB) (id : Nat) (ownerId : Nat) : Option Booking :=
  match db.bookings.lookup id with
  | some b => if b.ownerId = ownerId then some b else none
  | none => none

/-- `updateBookingStatus` from `booking.controller.js`: rejects a target
status outside {Accepted, Rejected} with 400, looks the booking up jointly
by id and caller-as-owner (404 when that fails), then stores the requested
status unconditionally. -/
def updateBookingStatus (db : DB) (callerId : Nat) (id : Nat) (status : String) :
    HResult Booking × DB :=
  if !(status == "Accepted" || status == "Rejected") then
    (.err 400 "Invalid status", db)
  else
    match Booking.findOwned db id callerId with
    | none => (.err 404 "Booking not found", db)
    | some b =>
      let b2 := { b with status := status }
      (.ok 200 b2, db.saveBooking id b2)

/-- `createBooking` from `booking.controller.js`: 404 when the listing is
missing, 400 on self-booking, 400 on a duplicate (listing, tenant) pair,
otherwise inserts a booking whose status is the schema default Pending.
A malformed listing id or a schema-invalid message (> 500 chars) raises in
the try block, and the catch has no specific branch, so those give 500. -/
def createBooking (db : DB) (tenantId : Nat) (listingId : RawId)
    (message : Option String) (newId : Nat) (now : Nat) : HResult Booking × DB :=
  match listingId with
  | .malformed _ => (.err 500 "Failed to create booking request", db)
  | .valid lid =>
    match db.listings.lookup lid with
    | none => (.err 404 "Listing not found", db)
    | some listing =>
      if listing.ownerId = tenantId then
        (.err 400 "You cannot book your own listing", db)
      else if db.bookings.any (fun p => p.2.listingId == lid && p.2.tenantId == tenantId) then
        (.err 400 "You have already sent a request for this listing", db)
      else if (message.getD "").length > 500 then
        (.err 500 "Failed to create booking request", db)
      else
        let b : Booking :=
          { listingId := lid, tenantId := tenantId, ownerId := listing.ownerId
            status := "Pending", message := message, createdAt := now }
        (.ok 201 b, { db with bookings := (newId, b) :: db.bookings })

/-- `getOwnerBookings` from `booking.controller.js`: all bookings whose
`ownerId` is the caller, newest first. -/
def getOwnerBookings (db : DB) (callerId : Nat) : HResult (List Booking) :=
  .ok 200 (((db.bookings.map Prod.snd).filter (fun b => b.ownerId == callerId)).mergeSort
    (fun a b => decide (b.createdAt ≤ a.createdAt)))

/-- The closed set of listing types. -/
def typeEnum : List String := ["Room", "Hostel", "Apartment", "Flat"]

/-- Mongoose schema validation for a listing document (`listing.model.js`):
the list of validation error messages, empty iff the document is valid.
String setters (`trim`) are applied before this check by the callers. -/
def listingValidationErrors (l : Listing) : List String :=
  (if l.title == "" then ["Title is required"]
   else (if l.title.length < 5 then ["Title must be at least 5 characters long"] else [])
     ++ (if l.title.length > 100 then ["Title cannot exceed 100 characters"] else []))
  ++ (if l.description == "" then ["Description is required"]
      else (if l.description.length < 20 then ["Description must be at least 20 characters long"] else [])
        ++ (if l.description.length > 2000 then ["Description cannot exceed 2000 characters"] else []))
  ++ (if l.price < 0 then ["Price must be a positive number"] else [])
  ++ (if l.location == "" then ["Location is required"] else [])
  ++ (match l.latitude with
      | some v => if v < -90 ∨ 90 < v then ["Latitude must be between -90 and 90"] else []
      | none => [])
  ++ (match l.longitude with
      | some v => if v < -180 ∨ 180 < v then ["Longitude must be between -180 and 180"] else []
      | none => [])
  ++ (if typeEnum.contains l.type then [] else ["Type must be either Room, Hostel, Apartment, or Flat"])
  ++ (if l.images.all (fun u => !(u == "")) then [] else ["All image URLs must be valid strings"])

/-- The request body of `createListing` / `updateListing`: every field may be
absent. -/
structure ListingBody where
  title : Option String
  description : Option String
  price : Option Int
  location : Option String
  latitude : Option Int
  longitude : Option Int
  type : Option String
  images : Option (List String)
deriving DecidableEq, Repr

/-- The listing document built by `Listing.create` inside `createListing`:
trimmed string fields, `images || []`, `ownerId` from the authenticated
caller, and `isApproved` hard-coded to `true`. -/
def ListingBody.toListing (b : ListingBody) (callerId : Nat) (now : Nat) : Listing :=
  { title := trimStr (b.title.getD "")
    description := trimStr (b.description.getD "")
    price := b.price.getD 0
    location := trimStr (b.location.getD "")
    latitude := b.latitude
    longitude := b.longitude
    type := b.type.getD ""
    images := b.images.getD []
    ownerId := callerId
    isApproved := true
    createdAt := now }

/-- `createListing` from `listing.controller.js`: requires the five fields
truthy, price positive, type in the closed set; then persists via
`Listing.create` (schema validation may still 400); the created document
carries `ownerId` from the caller and `isApproved: true`. -/
def createListing (db : DB) (callerId : Nat) (b : ListingBody) (newId : Nat) (now : Nat) :
    HResult Listing × DB :=
  if !(strTruthy b.title && strTruthy b.description && numTruthy b.price
        && strTruthy b.location && strTruthy b.type) then
    (.err 400 "Please provide all required fields: title, description, price, location, type", db)
  else if b.price.getD 0 ≤ 0 then
    (.err 400 "Price must be a positive number", db)
  else if !(typeEnum.contains (b.type.getD "")) then
    (.err 400 "Type must be either Room, Hostel, Apartment, or Flat", db)
  else
    let l := b.toListing callerId now
    match listingValidationErrors l with
    | [] => (.ok 201 l, { db with listings := (newId, l) :: db.listings })
    | msgs => (.err 400 (String.intercalate ", " msgs), db)

/-- The ECMAScript pattern metacharacters: a pattern character outside this
list stands for itself. -/
def regexMeta : List Char :=
  ['^', '$', '\\', '.', '*', '+', '?', '(', ')', '[', ']', '{', '}', '|']

/-- A pattern token of the modeled regex fragment: a literal character, or
the `.` wildcard. -/
inductive RTok where
  | lit (c : Char)
  | dot
deriving DecidableEq, Repr

/-- The modeled fragment of the ECMAScript pattern grammar: patterns made
only of literal (non-metacharacter) characters and the `.` wildcard.
`none` for any pattern containing another metacharacter — such a pattern is
outside the fragment (it may be a valid regex with non-literal semantics,
or a SyntaxError) and its behaviour is left to the abstract `rxc`
parameter of `getAllListings`. -/
def parseSimplePattern : List Char → Option (List RTok)
  | [] => some []
  | c :: t =>
    if c == '.' then (parseSimplePattern t).map (fun tks => RTok.dot :: tks)
    else if regexMeta.contains c then none
    else (parseSimplePattern t).map (fun tks => RTok.lit c :: tks)

/-- One token against one character under the `i` flag: a literal matches up
to ASCII case, and `.` matches every character except the ECMAScript line
terminators. -/
def rtokMatches (tk : RTok) (c : Char) : Bool :=
  match tk with
  | .lit a => a.toLower == c.toLower
  | .dot => !(c == '\n' || c == '\r' || c == '\u2028' || c == '\u2029')

/-- The token sequence matched consecutively from the head of the input. -/
def rmatchAt : List RTok → List Char → Bool
  | [], _ => true
  | _ :: _, [] => false
  | tk :: tks, c :: cs => rtokMatches tk c && rmatchAt tks cs

/-- `RegExp.prototype.test` for a fragment pattern: the token sequence
matches starting at some position of the input (the position after the last
character included). -/
def rtest (tks : List RTok) : List Char → Bool
  | [] => rmatchAt tks []
  | c :: cs => rmatchAt tks (c :: cs) || rtest tks cs

/-- `rxc` abstracts `pat => new RegExp(pat, 'i')` composed with `.test`:
`none` when the constructor throws a SyntaxError, otherwise the compiled
test function. `FragmentJsRegex rxc` pins it down on the modeled fragment:
there the pattern is a valid regex and the test is `rtest` of its tokens.
Outside the fragment `rxc` is unconstrained, like `hashFn` for bcrypt. -/
def FragmentJsRegex (rxc : String → Option (String → Bool)) : Prop :=
  ∀ pat tks, parseSimplePattern pat.data = some tks →
    ∃ f, rxc pat = some f ∧ ∀ s, f s = rtest tks s.data

/-- A concrete instantiation of `rxc` used in closed runs: compile fragment
patterns with `rtest`, report everything else as not compiling. (On the
fragment this is exact JS behaviour; outside it, it is one arbitrary
instantiation of the abstract parameter.) -/
def jsRegexCompileModel (pat : String) : Option (String → Bool) :=
  match parseSimplePattern pat.data with
  | some tks => some (fun s => rtest tks s.data)
  | none => none

/-- The query parameters of `getAllListings`. -/
structure ListingQuery where
  type : Option String
  minPrice : Option Int
  maxPrice : Option Int
  search : Option String
deriving DecidableEq, Repr

/-- The Mongo query built by `getAllListings`: `isApproved: true`, an exact
type match when the type parameter is truthy and not the sentinel "All",
inclusive price bounds, and — when a search regex was compiled — its
case-insensitive test over title OR location. -/
def matchesQuery (sf : Option (String → Bool)) (q : ListingQuery) (l : Listing) : Bool :=
  l.isApproved
  && (if strTruthy q.type && !(q.type.getD "" == "All") then l.type == q.type.getD "" else true)
  && (match q.minPrice with | some m => decide (m ≤ l.price) | none => true)
  && (match q.maxPrice with | some m => decide (l.price ≤ m) | none => true)
  && (match sf with | some f => f l.title || f l.location | none => true)

/-- `getAllListings` from `listing.controller.js`: when a truthy search is
supplied, `new RegExp(search, 'i')` is built inside the try block — a
throwing constructor hits the generic catch and answers 500 — and the
query filters with its test; the matching listings are returned sorted
newest-created-first. -/
def getAllListings (rxc : String → Option (String → Bool)) (db : DB) (q : ListingQuery) :
    HResult (List Listing) :=
  if strTruthy q.search then
    match rxc (q.search.getD "") with
    | none => .err 500 "Failed to fetch listings. Please try again."
    | some f =>
      .ok 200 (((db.listings.map Prod.snd).filter (matchesQuery (some f) q)).mergeSort
        (fun a b => decide (b.createdAt ≤ a.createdAt)))
  else
    .ok 200 (((db.listings.map Prod.snd).filter (matchesQuery none q)).mergeSort
      (fun a b => decide (b.createdAt ≤ a.createdAt)))

/-- Models `price !== undefined && price <= 0` in `updateListing`. -/
def priceSuppliedNonPositive : Option Int → Bool
  | some p => decide (p ≤ 0)
  | none => false

/-- The field assignments of `updateListing`: string fields and price are
assigned only when truthy, latitude/longitude whenever supplied, images
whenever supplied (a JS array is always truthy). -/
def ListingBody.applyPatch (b : ListingBody) (l : Listing) : Listing :=
  { l with
    title := if strTruthy b.title then trimStr (b.title.getD "") else l.title
    description := if strTruthy b.description then trimStr (b.description.getD "") else l.description
    price := if numTruthy b.price then b.price.getD 0 else l.price
    location := if strTruthy b.location then trimStr (b.location.getD "") else l.location
    latitude := match b.latitude with | some v => some v | none => l.latitude
    longitude := match b.longitude with | some v => some v | none => l.longitude
    type := if strTruthy b.type then b.type.getD "" else l.type
    images := match b.images with | some imgs => imgs | none => l.images }

/-- `updateListing` from `listing.controller.js`: 400 on a malformed id
(CastError branch), 404 when absent, 403 when the caller is not the owner,
400 when a supplied price is not positive or a truthy supplied type is not
in the closed set; otherwise patches the truthy supplied fields and saves
(schema validation may still 400). -/
def updateListing (db : DB) (callerId : Nat) (id : RawId) (b : ListingBody) :
    HResult Listing × DB :=
  match id with
  | .malformed _ => (.err 400 "Invalid listing ID", db)
  | .valid n =>
    match db.listings.lookup n with
    | none => (.err 404 "Listing not found", db)
    | some l =>
      if !(l.ownerId == callerId) then
        (.err 403 "You are not authorized to update this listing", db)
      else if priceSuppliedNonPositive b.price then
        (.err 400 "Price must be a positive number", db)
      else if strTruthy b.type && !(typeEnum.contains (b.type.getD "")) then
        (.err 400 "Type must be either Room, Hostel, Apartment, or Flat", db)
      else
        let l2 := b.applyPatch l
        match listingValidationErrors l2 with
        | [] => (.ok 200 l2, db.setListing n l2)
        | msgs => (.err 400 (String.intercalate ", " msgs), db)

/-- Helper from `listing.controller.js`: the Cloudinary public id of a
stored image URL (last path segment, up to the first dot). -/
def getPublicIdFromUrl (url : String) : Option String :=
  match (splitOnChar '/' url).getLast? with
  | none => none
  | some filename =>
    match (splitOnCharAux '.' [] filename).head? with
    | none => none
    | some publicId => some ("gharsathi/listings/" ++ String.mk publicId)

/-- `deleteListing` from `listing.controller.js`: 400 on a malformed id,
404 when absent, 403 when the caller is not the owner; then awaits
`Promise.all` of the Cloudinary deletions INSIDE the try block, so if any
image deletion fails the catch returns 500 and `findByIdAndDelete` is never
reached; only when every deletion succeeds is the record removed.
`destroyOk` says whether the external store's delete succeeds for a given
public id. -/
def deleteListing (destroyOk : String → Bool) (db : DB) (callerId : Nat) (id : RawId) :
    HResult Unit × DB :=
  match id with
  | .malformed _ => (.err 400 "Invalid listing ID", db)
  | .valid n =>
    match db.listings.lookup n with
    | none => (.err 404 "Listing not found", db)
    | some l =>
      if !(l.ownerId == callerId) then
        (.err 403 "You are not authorized to delete this listing", db)
      else if (l.images.filterMap getPublicIdFromUrl).all destroyOk then
        (.ok 200 (), db.removeListing n)
      else
        (.err 500 "Failed to delete listing. Please try again.", db)

/-- A JSON body value for the `isApproved` field of `updateListingStatus`:
the `typeof isApproved !== 'boolean'` check distinguishes booleans from
everything else. -/
inductive BodyVal where
  | boolVal (b : Bool)
  | strVal (s : String)
  | numVal (n : Int)
  | missing
deriving DecidableEq, Repr

/-- `updateListingStatus` from `listing.controller.js` (admin endpoint):
400 when the body is not a boolean; then `findByIdAndUpdate` — a malformed
id raises a CastError and the catch block has NO CastError branch, so it
falls through to the generic 500; 404 when absent; otherwise flips the
flag. -/
def updateListingStatus (db : DB) (id : RawId) (isApproved : BodyVal) :
    HResult Listing × DB :=
  match isApproved with
  | .boolVal v =>
    match id with
    | .malformed _ => (.err 500 "Failed to update listing status", db)
    | .valid n =>
      match db.listings.lookup n with
      | none => (.err 404 "Listing not found", db)
      | some l =>
        let l2 := { l with isApproved := v }
        (.ok 200 l2, db.setListing n l2)
  | _ => (.err 400 "Invalid status provided", db)

/-- `getListingById` from `listing.controller.js`: 400 on a malformed id
(its catch HAS a CastError branch), 404 when absent, 200 otherwise. -/
def getListingById (db : DB) (id : RawId) : HResult Listing :=
  match id with
  | .malformed _ => .err 400 "Invalid listing ID"
  | .valid n =>
    match db.listings.lookup n with
    | none => .err 404 "Listing not found"
    | some l => .ok 200 l

/-- A `\w` character of the user-schema email pattern. -/
def isWordChar (c : Char) : Bool := c.isAlpha || c.isDigit || c == '_'

/-- A `[.-]` separator character of the email pattern. -/
def isSepChar (c : Char) : Bool := c == '.' || c == '-'

/-- Tail of the `\w+([\.-]?\w+)*` check: every character is a word character
or a separator preceded by a word character, and the run ends in a word
character. `prev` is the previous character. -/
def wordSepRunAux : Char → List Char → Bool
  | prev, [] => isWordChar prev
  | prev, c :: t => (isWordChar c || (isSepChar c && isWordChar prev)) && wordSepRunAux c t

/-- The language of `\w+([\.-]?\w+)*`: nonempty, starts and ends with a word
character, no two adjacent separators. -/
def wordSepRun : List Char → Bool
  | [] => false
  | c :: t => isWordChar c && wordSepRunAux c t

/-- The language of `(\.\w{2,3})+`: one or more groups of a dot followed by
two or three word characters. Stated via the dot-split: the first dot-piece
is empty (the string starts with a dot) and every following piece is two or
three word characters (word characters never contain a dot, so the groups
are exactly the dot-separated pieces). -/
def tldGroups (l : List Char) : Bool :=
  match splitOnCharAux '.' [] l with
  | [] => false
  | first :: groups =>
    first.isEmpty && !groups.isEmpty
      && groups.all (fun g => (g.length == 2 || g.length == 3) && g.all isWordChar)

/-- The language of `\w+([\.-]?\w+)*(\.\w{2,3})+` (the part after `@`): some
split into a word/separator run and a trailing TLD group sequence. -/
def domainOk (l : List Char) : Bool :=
  (List.range l.length).any (fun i => wordSepRun (l.take i) && tldGroups (l.drop i))

/-- The user-schema email pattern
`^\w+([\.-]?\w+)*@\w+([\.-]?\w+)*(\.\w{2,3})+$` from `User.model.js`. -/
def emailFormatOk (s : String) : Bool :=
  match splitOnChar '@' s with
  | [lp, dom] => wordSepRun lp && domainOk dom
  | _ => false

/-- The closed set of user roles. -/
def roleEnum : List String := ["Tenant", "Owner", "Admin"]

/-- Mongoose schema validation for a user document (`User.model.js`),
run on the plaintext password before the hashing pre-save hook. -/
def userValidationErrors (u : User) : List String :=
  (if u.name == "" then ["Name is required"]
   else (if u.name.length < 2 then ["Name must be at least 2 characters long"] else [])
     ++ (if u.name.length > 50 then ["Name cannot exceed 50 characters"] else []))
  ++ (if emailFormatOk u.email then [] else ["Please provide a valid email address"])
  ++ (if u.password == "" then ["Password is required"]
      else if u.password.length < 6 then ["Password must be at least 6 characters long"] else [])
  ++ (if roleEnum.contains u.role then [] else ["Role must be either Tenant, Owner, or Admin"])

/-- Models `User.findOne({ email })`. -/
def findUserByEmail (db : DB) (email : String) : Option User :=
  db.users.find? (fun u => u.email == email)

/-- The serialized `{user, token}` payload of the auth endpoints: the
password hash is never part of it, and the token binds only the user id. -/
structure AuthData where
  userId : Nat
  name : String
  email : String
  role : String
  token : Nat
deriving DecidableEq, Repr

/-- `register` from `auth.controller.js`: requires name/email/password
truthy, password length at least 6, email (lower-cased) not already
registered, and a role from the closed set (default Tenant — any role in
the set, Admin included, is accepted from the public body); persists the
user with the bcrypt-hashed password (`hashFn` models bcrypt) after schema
validation. -/
def register (hashFn : String → String) (db : DB)
    (name email password role : Option String) (newId : Nat) : HResult AuthData × DB :=
  if !(strTruthy name && strTruthy email && strTruthy password) then
    (.err 400 "Please provide name, email, and password", db)
  else if (password.getD "").length < 6 then
    (.err 400 "Password must be at least 6 characters long", db)
  else
    match findUserByEmail db (toLowerStr (email.getD "")) with
    | some _ => (.err 400 "Email already registered. Please login instead.", db)
    | none =>
      let userRole := if strTruthy role then role.getD "" else "Tenant"
      if !(roleEnum.contains userRole) then
        (.err 400 "Invalid role. Must be Tenant, Owner, or Admin", db)
      else
        let u0 : User :=
          { id := newId, name := trimStr (name.getD "")
            email := trimStr (toLowerStr (email.getD ""))
            password := password.getD "", role := userRole }
        match userValidationErrors u0 with
        | [] =>
          let u := { u0 with password := hashFn u0.password }
          (.ok 201 { userId := newId, name := u0.name, email := u0.email
                     role := u0.role, token := newId },
           { db with users := u :: db.users })
        | msgs => (.err 400 (String.intercalate ", " msgs), db)

/-- `login` from `auth.controller.js`: 400 when a field is missing; the
hard-coded dev shortcut creates the Admin account on the fly when the
literal pair (admin@gharsathi.com, admin123) is presented and no such user
exists; then looks the user up by lower-cased email and compares the bcrypt
hash, answering 401 with the SAME message for an unknown email and for a
wrong password. -/
def login (hashFn : String → String) (db : DB) (email password : String)
    (newAdminId : Nat) : HResult AuthData × DB :=
  if email == "" || password == "" then
    (.err 400 "Please provide email and password", db)
  else
    let db1 :=
      if email == "admin@gharsathi.com" && password == "admin123" then
        match findUserByEmail db email with
        | some _ => db
        | none =>
          { db with users :=
              { id := newAdminId, name := "System Admin", email := "admin@gharsathi.com"
                password := hashFn "admin123", role := "Admin" } :: db.users }
      else db
    match findUserByEmail db1 (toLowerStr email) with
    | none => (.err 401 "Invalid email or password", db1)
    | some u =>
      if hashFn password == u.password then
        (.ok 200 { userId := u.id, name := u.name, email := u.email
                   role := u.role, token := u.id }, db1)
      else
        (.err 401 "Invalid email or password", db1)

/-- An accepted booking owned by user 10, requested by tenant 20. -/
def cexBooking : Booking :=
  { listingId := 5, tenantId := 20, ownerId := 10, status := "Accepted"
    message := none, createdAt := 2 }

/-- A store holding only `cexBooking` under id 1. -/
def cexBookingDB : DB := { users := [], listings := [], bookings := [(1, cexBooking)] }

/-- C1 counterexample: `updateBookingStatus` does not check the current
status, so the booking's owner CAN move an Accepted booking to Rejected —
Accepted is not terminal. Concretely, on a store holding an Accepted
booking, the owner's `updateStatus(id, Rejected)` succeeds and the stored
status changes to Rejected. -/
theorem accepted_booking_not_terminal_cex :
    cexBooking.status = "Accepted" ∧
    (updateBookingStatus cexBookingDB 10 1 "Rejected").1
      = .ok 200 { cexBooking with status := "Rejected" } ∧
    ((updateBookingStatus cexBookingDB 10 1 "Rejected").2.bookings.lookup 1).map Booking.status
      = some "Rejected" :=
  ⟨rfl, rfl, rfl⟩

/-- C1 amended: `updateBookingStatus` by the booking's owner with a target
status in {Accepted, Rejected} succeeds from ANY current status and stores
the requested status; Pending→Accepted and Pending→Rejected are therefore
admitted, but Accepted and Rejected are not terminal — every transition
into {Accepted, Rejected} is admitted regardless of the current status. -/
theorem updateBookingStatus_transition_amended (db : DB) (caller id : Nat)
    (status : String) (b : Booking)
    (hs : status = "Accepted" ∨ status = "Rejected")
    (hb : Booking.findOwned db id caller = some b) :
    updateBookingStatus db caller id status
      = (.ok 200 { b with status := status },
         db.saveBooking id { b with status := status }) := by
  have hcond : (status == "Accepted" || status == "Rejected") = true := by
    rcases hs with h | h <;> simp [h]
  simp [updateBookingStatus, hcond, hb]

/-- Witness for the amended C1 theorem: the concrete Accepted→Rejected
transition from the counterexample store. -/
theorem updateBookingStatus_transition_amended_witness :
    updateBookingStatus cexBookingDB 10 1 "Rejected"
      = (.ok 200 { cexBooking with status := "Rejected" },
         cexBookingDB.saveBooking 1 { cexBooking with status := "Rejected" }) :=
  updateBookingStatus_transition_amended cexBookingDB 10 1 "Rejected" cexBooking
    (Or.inr rfl) rfl

/-- C3: `updateBookingStatus` rejects a target status outside
{Accepted, Rejected} with 400 before any lookup (the outcome is the same
for every store); with an allowed target it answers 404 whenever no booking
matches the id and the caller jointly as owner — in particular a booking
that exists but belongs to a different owner also yields 404, never 403. -/
theorem updateBookingStatus_error_contract (db : DB) (caller id : Nat) (status : String) :
    (status ≠ "Accepted" ∧ status ≠ "Rejected" →
      updateBookingStatus db caller id status = (.err 400 "Invalid status", db)) ∧
    ((status = "Accepted" ∨ status = "Rejected") →
      Booking.findOwned db id caller = none →
      updateBookingStatus db caller id status = (.err 404 "Booking not found", db)) ∧
    (∀ b, (status = "Accepted" ∨ status = "Rejected") →
      db.bookings.lookup id = some b → b.ownerId ≠ caller →
      updateBookingStatus db caller id status = (.err 404 "Booking not found", db)) := by
  refine ⟨fun h => ?_, fun hs hn => ?_, fun b hs hl hne => ?_⟩
  · simp [updateBookingStatus, h.1, h.2]
  · have hcond : (status == "Accepted" || status == "Rejected") = true := by
      rcases hs with h | h <;> simp [h]
    simp [updateBookingStatus, hcond, hn]
  · have hcond : (status == "Accepted" || status == "Rejected") = true := by
      rcases hs with h | h <;> simp [h]
    have hn : Booking.findOwned db id caller = none := by
      simp [Booking.findOwned, hl, hne]
    simp [updateBookingStatus, hcond, hn]

/-- Witness for C3: concretely, a bad target status gives 400; an allowed
status with an id that matches no booking gives 404; and an allowed status
on an existing booking called by a non-owner also gives 404. -/
theorem updateBookingStatus_error_contract_witness :
    updateBookingStatus cexBookingDB 10 1 "Pending" = (.err 400 "Invalid status", cexBookingDB) ∧
    updateBookingStatus cexBookingDB 10 2 "Accepted"
      = (.err 404 "Booking not found", cexBookingDB) ∧
    updateBookingStatus cexBookingDB 99 1 "Accepted"
      = (.err 404 "Booking not found", cexBookingDB) :=
  ⟨(updateBookingStatus_error_contract cexBookingDB 10 1 "Pending").1
      ⟨by decide, by decide⟩,
   (updateBookingStatus_error_contract cexBookingDB 10 2 "Accepted").2.1 (Or.inl rfl) rfl,
   (updateBookingStatus_error_contract cexBookingDB 99 1 "Accepted").2.2 cexBooking
      (Or.inl rfl) rfl (by decide)⟩

/-- An approved listing owned by user 7 with one stored image. -/
def cexListing : Listing :=
  { title := "Sunny flat downtown", description := "A bright two-room flat near the river bank."
    price := 1200, location := "Lalitpur", latitude := none, longitude := none
    type := "Flat"
    images := ["https://res.cloudinary.com/demo/image/upload/v1/gharsathi/listings/pic1.jpg"]
    ownerId := 7, isApproved := true, createdAt := 3 }

/-- A store holding only `cexListing` under id 1. -/
def cexListingDB : DB := { users := [], listings := [(1, cexListing)], bookings := [] }

/-- C2 counterexample: when the external image deletion fails, the owner's
delete does NOT remove the listing record and does NOT succeed — the
failure propagates as a 500 response and the record is still stored. -/
theorem deleteListing_image_failure_blocks_cex :
    deleteListing (fun _ => false) cexListingDB 7 (.valid 1)
      = (.err 500 "Failed to delete listing. Please try again.", cexListingDB) ∧
    ((deleteListing (fun _ => false) cexListingDB 7 (.valid 1)).2.listings.lookup 1).isSome
      = true :=
  ⟨rfl, rfl⟩

/-- C2 amended: image deletion during a listing delete is NOT best-effort:
the deletions are awaited together inside the try block, so if any of them
fails the error propagates to the caller as a 500 Internal response and the
listing record is not removed; only when every image deletion succeeds is
the listing record removed and the operation successful. -/
theorem deleteListing_amended (destroyOk : String → Bool) (db : DB) (caller n : Nat)
    (l : Listing) (hl : db.listings.lookup n = some l) (hown : l.ownerId = caller) :
    ((l.images.filterMap getPublicIdFromUrl).all destroyOk = false →
      deleteListing destroyOk db caller (.valid n)
        = (.err 500 "Failed to delete listing. Please try again.", db)) ∧
    ((l.images.filterMap getPublicIdFromUrl).all destroyOk = true →
      deleteListing destroyOk db caller (.valid n) = (.ok 200 (), db.removeListing n)) := by
  constructor <;> intro h <;> simp [deleteListing, hl, hown, h]

/-- Witness for the amended C2 theorem: on the concrete store, a failing
image deletion gives 500 and leaves the store unchanged, while all-success
removes the record. -/
theorem deleteListing_amended_witness :
    deleteListing (fun _ => false) cexListingDB 7 (.valid 1)
      = (.err 500 "Failed to delete listing. Please try again.", cexListingDB) ∧
    deleteListing (fun _ => true) cexListingDB 7 (.valid 1)
      = (.ok 200 (), cexListingDB.removeListing 1) :=
  ⟨(deleteListing_amended (fun _ => false) cexListingDB 7 1 cexListing rfl rfl).1 rfl,
   (deleteListing_amended (fun _ => true) cexListingDB 7 1 cexListing rfl rfl).2 rfl⟩

/-- C10: with a malformed listing id and a boolean body, the admin
`updateListingStatus` endpoint answers 500 (its catch block has no
CastError branch), while `getListingById`, `updateListing` and
`deleteListing` answer 400 Invalid listing ID on the same malformed id. -/
theorem updateListingStatus_malformed_id_500 (db : DB) (s : String) (v : Bool)
    (caller : Nat) (b : ListingBody) (destroyOk : String → Bool) :
    updateListingStatus db (.malformed s) (.boolVal v)
      = (.err 500 "Failed to update listing status", db) ∧
    getListingById db (.malformed s) = .err 400 "Invalid listing ID" ∧
    (updateListing db caller (.malformed s) b).1 = .err 400 "Invalid listing ID" ∧
    (deleteListing destroyOk db caller (.malformed s)).1 = .err 400 "Invalid listing ID" :=
  ⟨rfl, rfl, rfl, rfl⟩

/-- C4: with all five required fields truthy, a positive price, a type from
the closed set and a schema-valid document, `createListing` succeeds and
the created listing has `isApproved = true` immediately (the admin
moderation step is bypassed) and `ownerId` equal to the creating caller. -/
theorem createListing_auto_approves (db : DB) (caller : Nat) (b : ListingBody)
    (newId now : Nat)
    (ht : strTruthy b.title = true) (hd : strTruthy b.description = true)
    (hloc : strTruthy b.location = true) (hty : strTruthy b.type = true)
    (hp : ∃ p, b.price = some p ∧ 0 < p)
    (htyEnum : typeEnum.contains (b.type.getD "") = true)
    (hschema : listingValidationErrors (b.toListing caller now) = []) :
    createListing db caller b newId now
      = (.ok 201 (b.toListing caller now),
         { db with listings := (newId, b.toListing caller now) :: db.listings }) ∧
    (b.toListing caller now).isApproved = true ∧
    (b.toListing caller now).ownerId = caller := by
  obtain ⟨p, hp1, hp2⟩ := hp
  have hnum : numTruthy b.price = true := by
    simp [numTruthy, hp1]; omega
  have hple : ¬ (b.price.getD 0 ≤ 0) := by
    simp [hp1]; omega
  have hmem : b.type.getD "" ∈ typeEnum := by simpa using htyEnum
  refine ⟨?_, rfl, rfl⟩
  simp [createListing, ht, hd, hloc, hty, hnum, hple, htyEnum, hschema, hmem]

/-- A schema-valid creation body. -/
def okCreateBody : ListingBody :=
  { title := some "Cozy room near campus"
    description := some "A quiet furnished room close to the university gate."
    price := some 5000, location := some "Kathmandu", latitude := none, longitude := none
    type := some "Room"
    images := some ["https://res.cloudinary.com/demo/image/upload/v1/gharsathi/listings/room1.jpg"] }

/-- An empty store. -/
def emptyDB : DB := { users := [], listings := [], bookings := [] }

/-- Witness for C4: the concrete valid creation succeeds, auto-approved,
owned by the caller. -/
theorem createListing_auto_approves_witness :
    createListing emptyDB 7 okCreateBody 1 5
      = (.ok 201 (okCreateBody.toListing 7 5),
         { emptyDB with listings := [(1, okCreateBody.toListing 7 5)] }) ∧
    (okCreateBody.toListing 7 5).isApproved = true ∧
    (okCreateBody.toListing 7 5).ownerId = 7 :=
  createListing_auto_approves emptyDB 7 okCreateBody 1 5 rfl rfl rfl rfl
    ⟨5000, rfl, by decide⟩ rfl rfl

/-- C8: the public `register` endpoint accepts `role = "Admin"` like any
other closed-set role: with a fresh email and schema-valid name/email and a
long-enough password, registration succeeds and the persisted user record
has role Admin — any caller can self-provision administrator privileges. -/
theorem register_admin_self_provision (hashFn : String → String) (db : DB)
    (nm em pw : String) (newId : Nat)
    (hnm : nm ≠ "") (hem : em ≠ "") (hpw : 6 ≤ pw.length)
    (hfresh : findUserByEmail db (toLowerStr em) = none)
    (hvalid : userValidationErrors
      { id := newId, name := trimStr nm, email := trimStr (toLowerStr em)
        password := pw, role := "Admin" } = []) :
    ∃ d db2,
      register hashFn db (some nm) (some em) (some pw) (some "Admin") newId
        = (.ok 201 d, db2)
      ∧ d.role = "Admin"
      ∧ ∃ u, u ∈ db2.users ∧ u.role = "Admin" ∧ u.id = newId := by
  have h1 : strTruthy (some nm) = true := by simp [strTruthy, hnm]
  have h2 : strTruthy (some em) = true := by simp [strTruthy, hem]
  have hpw0 : pw ≠ "" := by
    intro h
    rw [h] at hpw
    simp at hpw
  have h3 : strTruthy (some pw) = true := by simp [strTruthy, hpw0]
  have h4 : ¬ (pw.length < 6) := by omega
  have heq : register hashFn db (some nm) (some em) (some pw) (some "Admin") newId
      = (.ok 201 { userId := newId, name := trimStr nm, email := trimStr (toLowerStr em)
                   role := "Admin", token := newId },
         { db with users :=
            { id := newId, name := trimStr nm, email := trimStr (toLowerStr em)
              password := hashFn pw, role := "Admin" } :: db.users }) := by
    simp [register, h1, h2, h3, h4, hfresh, strTruthy, roleEnum, hvalid, hnm, hem, hpw0]
  exact ⟨_, _, heq, rfl, _, List.mem_cons_self _ _, rfl, rfl⟩

/-- Witness for C8: a concrete anonymous caller registers with role Admin
against an empty store and gets an Admin account. -/
theorem register_admin_self_provision_witness :
    ∃ d db2,
      register (fun s => "bcrypt$" ++ s) emptyDB (some "Mallory") (some "mallory@evil.com")
          (some "hunter22") (some "Admin") 1
        = (.ok 201 d, db2)
      ∧ d.role = "Admin"
      ∧ ∃ u, u ∈ db2.users ∧ u.role = "Admin" ∧ u.id = 1 :=
  register_admin_self_provision (fun s => "bcrypt$" ++ s) emptyDB
    "Mallory" "mallory@evil.com" "hunter22" 1 (by decide) (by decide) (by decide) rfl rfl

/-- A bcrypt stand-in used to instantiate the hash-function parameter in
concrete runs. -/
def devHash (s : String) : String := "bcrypt$" ++ s

/-- C7 counterexample: an unregistered email does NOT always fail login —
the hard-coded dev bootstrap pair (admin@gharsathi.com, admin123) succeeds
with 200 on a store where that email is unregistered, creating the Admin
account on the fly. -/
theorem login_unknown_email_dev_bootstrap_cex :
    findUserByEmail emptyDB "admin@gharsathi.com" = none ∧
    (login devHash emptyDB "admin@gharsathi.com" "admin123" 1).1
      = .ok 200 { userId := 1, name := "System Admin", email := "admin@gharsathi.com"
                  role := "Admin", token := 1 } :=
  ⟨rfl, rfl⟩

/-- C7 amended: except for the hard-coded dev-admin pair
(admin@gharsathi.com with password admin123, which auto-creates the Admin
account and succeeds), login with an unregistered email fails 401 and login
with a registered email but wrong password fails 401, and the two error
responses are identical — the outcome does not distinguish whether the
email exists. -/
theorem login_uniform_401_amended (hashFn : String → String) (db : DB)
    (email password : String) (newAdminId : Nat)
    (he : email ≠ "") (hp : password ≠ "")
    (hdev : ¬(email = "admin@gharsathi.com" ∧ password = "admin123")) :
    (findUserByEmail db (toLowerStr email) = none →
      login hashFn db email password newAdminId
        = (.err 401 "Invalid email or password", db)) ∧
    (∀ u, findUserByEmail db (toLowerStr email) = some u → hashFn password ≠ u.password →
      login hashFn db email password newAdminId
        = (.err 401 "Invalid email or password", db)) := by
  have hdev2 : (email == "admin@gharsathi.com" && password == "admin123") = false := by
    by_cases h1 : email = "admin@gharsathi.com"
    · by_cases h2 : password = "admin123"
      · exact absurd ⟨h1, h2⟩ hdev
      · simp [h2]
    · simp [h1]
  constructor
  · intro hn
    simp [login, he, hp, hdev2, hn]
  · intro u hu hne
    simp [login, he, hp, hdev2, hu, hne]

/-- A registered tenant used in the login witness. -/
def aliceUser : User :=
  { id := 3, name := "Alice", email := "alice@mail.com"
    password := devHash "correct1", role := "Tenant" }

/-- A store holding only `aliceUser`. -/
def authDB : DB := { users := [aliceUser], listings := [], bookings := [] }

/-- Witness for the amended C7 theorem: a concrete unknown email and a
concrete wrong password both produce the very same 401 response. -/
theorem login_uniform_401_amended_witness :
    login devHash authDB "bob@mail.com" "whatever1" 9
      = (.err 401 "Invalid email or password", authDB) ∧
    login devHash authDB "alice@mail.com" "wrongpw1" 9
      = (.err 401 "Invalid email or password", authDB) :=
  ⟨(login_uniform_401_amended devHash authDB "bob@mail.com" "whatever1" 9
      (by decide) (by decide) (by decide)).1 rfl,
   (login_uniform_401_amended devHash authDB "alice@mail.com" "wrongpw1" 9
      (by decide) (by decide) (by decide)).2 aliceUser rfl (by decide)⟩

/-- Inversion of a successful `updateListing`: when the stored listing is
`l`, a 200 response carries exactly the patched listing and the store
updated with it. -/
theorem updateListing_ok_inv (db : DB) (caller n : Nat) (l : Listing) (b : ListingBody)
    (l2 : Listing) (db2 : DB) (hl : db.listings.lookup n = some l)
    (h : updateListing db caller (.valid n) b = (.ok 200 l2, db2)) :
    l2 = b.applyPatch l ∧ db2 = db.setListing n l2 := by
  by_cases h1 : l.ownerId = caller
  · cases h2 : priceSuppliedNonPositive b.price
    · by_cases h3 : strTruthy b.type = true ∧ b.type.getD "" ∉ typeEnum
      · simp [updateListing, hl, h1, h2, h3] at h
      · rcases hve : listingValidationErrors (b.applyPatch l) with _ | ⟨m, ms⟩
        · simp [updateListing, hl, h1, h2, h3, hve] at h
          obtain ⟨ha, hb⟩ := h
          subst ha
          exact ⟨rfl, hb.symm⟩
        · simp [updateListing, hl, h1, h2, h3, hve] at h
    · simp [updateListing, hl, h1, h2] at h
  · simp [updateListing, hl, h1] at h

/-- C6: on an owned listing, `updateListing` with a supplied price of 0 is
rejected with a 400 validation error and the store is unchanged; and on any
successful update, an unsupplied price leaves the price unchanged, and an
empty-string supplied title/description/location/type is treated as not
supplied and skipped (partial patch semantics: only truthy supplied fields
are overwritten). -/
theorem updateListing_patch_semantics (db : DB) (caller n : Nat) (l : Listing)
    (b : ListingBody) (hl : db.listings.lookup n = some l) (hown : l.ownerId = caller) :
    (b.price = some 0 →
      updateListing db caller (.valid n) b = (.err 400 "Price must be a positive number", db)) ∧
    (∀ l2 db2, updateListing db caller (.valid n) b = (.ok 200 l2, db2) →
      (b.price = none → l2.price = l.price) ∧
      ((b.title = none ∨ b.title = some "") → l2.title = l.title) ∧
      ((b.description = none ∨ b.description = some "") → l2.description = l.description) ∧
      ((b.location = none ∨ b.location = some "") → l2.location = l.location) ∧
      ((b.type = none ∨ b.type = some "") → l2.type = l.type)) := by
  constructor
  · intro hp
    simp [updateListing, hl, hown, priceSuppliedNonPositive, hp]
  · intro l2 db2 h
    obtain ⟨hpatch, -⟩ := updateListing_ok_inv db caller n l b l2 db2 hl h
    subst hpatch
    refine ⟨fun hp => ?_, fun ht => ?_, fun hd => ?_, fun hloc => ?_, fun hty => ?_⟩
    · simp [ListingBody.applyPatch, numTruthy, hp]
    · rcases ht with ht | ht <;> simp [ListingBody.applyPatch, strTruthy, ht]
    · rcases hd with hd | hd <;> simp [ListingBody.applyPatch, strTruthy, hd]
    · rcases hloc with hloc | hloc <;> simp [ListingBody.applyPatch, strTruthy, hloc]
    · rcases hty with hty | hty <;> simp [ListingBody.applyPatch, strTruthy, hty]

/-- A body that supplies only `price = 0`. -/
def zeroPriceBody : ListingBody :=
  { title := none, description := none, price := some 0, location := none
    latitude := none, longitude := none, type := none, images := none }

/-- A body whose supplied string fields are all empty (falsy). -/
def falsyPatchBody : ListingBody :=
  { title := some "", description := some "", price := none, location := some ""
    latitude := none, longitude := none, type := some "", images := none }

/-- Witness for C6: on the concrete store, supplying price 0 yields 400
with the store unchanged, and an update whose supplied fields are all empty
strings leaves the title unchanged. -/
theorem updateListing_patch_semantics_witness :
    updateListing cexListingDB 7 (.valid 1) zeroPriceBody
      = (.err 400 "Price must be a positive number", cexListingDB) ∧
    (falsyPatchBody.applyPatch cexListing).title = cexListing.title :=
  ⟨(updateListing_patch_semantics cexListingDB 7 1 cexListing zeroPriceBody rfl rfl).1 rfl,
   ((updateListing_patch_semantics cexListingDB 7 1 cexListing falsyPatchBody rfl rfl).2
      (falsyPatchBody.applyPatch cexListing)
      (cexListingDB.setListing 1 (falsyPatchBody.applyPatch cexListing)) rfl).2.1
      (Or.inr rfl)⟩

/-- C9: a successful `updateListing` never modifies `isApproved`, `ownerId`
or `createdAt`, and every field whose body entry is absent is unchanged —
an owner cannot flip approval or transfer ownership through update. -/
theorem updateListing_frame (db : DB) (caller n : Nat) (l : Listing) (b : ListingBody)
    (l2 : Listing) (db2 : DB) (hl : db.listings.lookup n = some l)
    (h : updateListing db caller (.valid n) b = (.ok 200 l2, db2)) :
    l2.isApproved = l.isApproved ∧ l2.ownerId = l.ownerId ∧ l2.createdAt = l.createdAt ∧
    (b.title = none → l2.title = l.title) ∧
    (b.description = none → l2.description = l.description) ∧
    (b.price = none → l2.price = l.price) ∧
    (b.location = none → l2.location = l.location) ∧
    (b.type = none → l2.type = l.type) ∧
    (b.latitude = none → l2.latitude = l.latitude) ∧
    (b.longitude = none → l2.longitude = l.longitude) ∧
    (b.images = none → l2.images = l.images) ∧
    db2 = db.setListing n l2 := by
  obtain ⟨hpatch, hdb⟩ := updateListing_ok_inv db caller n l b l2 db2 hl h
  subst hpatch
  refine ⟨rfl, rfl, rfl, fun ht => ?_, fun hd => ?_, fun hp => ?_, fun hloc => ?_,
    fun hty => ?_, fun hla => ?_, fun hlo => ?_, fun him => ?_, hdb⟩
  · simp [ListingBody.applyPatch, strTruthy, ht]
  · simp [ListingBody.applyPatch, strTruthy, hd]
  · simp [ListingBody.applyPatch, numTruthy, hp]
  · simp [ListingBody.applyPatch, strTruthy, hloc]
  · simp [ListingBody.applyPatch, strTruthy, hty]
  · simp [ListingBody.applyPatch, hla]
  · simp [ListingBody.applyPatch, hlo]
  · simp [ListingBody.applyPatch, him]

/-- A body that supplies only a new title. -/
def titleOnlyBody : ListingBody :=
  { title := some "New spacious flat", description := none, price := none, location := none
    latitude := none, longitude := none, type := none, images := none }

/-- Witness for C9: on the concrete store, a title-only update leaves
`isApproved`, `ownerId`, `createdAt` and the price unchanged. -/
theorem updateListing_frame_witness :
    (titleOnlyBody.applyPatch cexListing).isApproved = cexListing.isApproved ∧
    (titleOnlyBody.applyPatch cexListing).ownerId = cexListing.ownerId ∧
    (titleOnlyBody.applyPatch cexListing).createdAt = cexListing.createdAt ∧
    (titleOnlyBody.applyPatch cexListing).price = cexListing.price := by
  have h := updateListing_frame cexListingDB 7 1 cexListing titleOnlyBody
    (titleOnlyBody.applyPatch cexListing)
    (cexListingDB.setListing 1 (titleOnlyBody.applyPatch cexListing)) rfl rfl
  exact ⟨h.1, h.2.1, h.2.2.1, h.2.2.2.2.2.1 rfl⟩

/-- The type filter of `getAllListings` matches exactly the supplied type
unless it is absent, empty, or the sentinel "All". -/
theorem typeCond_iff (o : Option String) (lt : String) :
    ((if strTruthy o && !(o.getD "" == "All") then lt == o.getD "" else true) = true)
      ↔ (∀ t, o = some t → t ≠ "" → t ≠ "All" → lt = t) := by
  rcases o with _ | t
  · simp [strTruthy]
  · by_cases h1 : t = ""
    · subst h1; simp [strTruthy]
    · by_cases h2 : t = "All"
      · subst h2; simp [strTruthy]
      · simp [strTruthy, h1, h2]

/-- The minPrice filter holds iff the bound holds whenever supplied. -/
theorem minCond_iff (o : Option Int) (p : Int) :
    ((match o with | some m => decide (m ≤ p) | none => true) = true)
      ↔ (∀ m, o = some m → m ≤ p) := by
  rcases o with _ | m <;> simp

/-- The maxPrice filter holds iff the bound holds whenever supplied. -/
theorem maxCond_iff (o : Option Int) (p : Int) :
    ((match o with | some m => decide (p ≤ m) | none => true) = true)
      ↔ (∀ m, o = some m → p ≤ m) := by
  rcases o with _ | m <;> simp

/-- The search filter of `getAllListings` holds iff the compiled search
test, whenever one was built, accepts the title or the location. -/
theorem sfCond_iff (sf : Option (String → Bool)) (a b : String) :
    ((match sf with | some f => f a || f b | none => true) = true)
      ↔ (∀ f, sf = some f → (f a = true ∨ f b = true)) := by
  rcases sf with _ | f <;> simp

/-- The Mongo query of `getAllListings`, characterised field by field. -/
theorem matchesQuery_iff (sf : Option (String → Bool)) (q : ListingQuery) (l : Listing) :
    matchesQuery sf q l = true ↔
      l.isApproved = true ∧
      (∀ t, q.type = some t → t ≠ "" → t ≠ "All" → l.type = t) ∧
      (∀ m, q.minPrice = some m → m ≤ l.price) ∧
      (∀ m, q.maxPrice = some m → l.price ≤ m) ∧
      (∀ f, sf = some f → (f l.title = true ∨ f l.location = true)) := by
  unfold matchesQuery
  rw [Bool.and_eq_true, Bool.and_eq_true, Bool.and_eq_true, Bool.and_eq_true]
  rw [typeCond_iff, minCond_iff, maxCond_iff, sfCond_iff]
  tauto

/-- The newest-first sort produces a list that is pairwise descending in
`createdAt`. -/
theorem mergeSort_byCreated_sorted (ll : List Listing) :
    (ll.mergeSort (fun a b => decide (b.createdAt ≤ a.createdAt))).Pairwise
      (fun a b => b.createdAt ≤ a.createdAt) := by
  have htrans : ∀ (a b c : Listing), (decide (b.createdAt ≤ a.createdAt)) = true →
      (decide (c.createdAt ≤ b.createdAt)) = true →
      (decide (c.createdAt ≤ a.createdAt)) = true := by
    intro a b c h1 h2
    simp only [decide_eq_true_eq] at *
    omega
  have htotal : ∀ (a b : Listing),
      ((decide (b.createdAt ≤ a.createdAt)) || (decide (a.createdAt ≤ b.createdAt))) = true := by
    intro a b
    simp only [Bool.or_eq_true, decide_eq_true_eq]
    omega
  exact (List.sorted_mergeSort htrans htotal ll).imp (by intro a b hab; simpa using hab)

/-- `jsRegexCompileModel` is a correct instantiation of the abstract RegExp
parameter on the modeled fragment. -/
theorem jsRegexCompileModel_fragment : FragmentJsRegex jsRegexCompileModel := by
  intro pat tks h
  refine ⟨fun s => rtest tks s.data, ?_, fun s => rfl⟩
  simp [jsRegexCompileModel, h]

/-- The query with only the search parameter, set to the pattern ".". -/
def dotQuery : ListingQuery :=
  { type := none, minPrice := none, maxPrice := none, search := some "." }

/-- C5 counterexample: the search parameter is fed to `new RegExp(search,
'i')`, not matched literally, so search "." over-matches: on a store whose
only (approved) listing contains no "." in its title or location, the
search "." still returns that listing, refuting the claimed iff with
case-insensitive substring containment. -/
theorem getAllListings_regex_dot_overmatch_cex :
    getAllListings jsRegexCompileModel cexListingDB dotQuery = .ok 200 [cexListing] ∧
    ¬ ((toLowerStr ".").data <:+: (toLowerStr cexListing.title).data) ∧
    ¬ ((toLowerStr ".").data <:+: (toLowerStr cexListing.location).data) := by
  refine ⟨?_, by decide, by decide⟩
  have h1 : getAllListings jsRegexCompileModel cexListingDB dotQuery
      = .ok 200 (([cexListing] : List Listing).mergeSort
          (fun a b => decide (b.createdAt ≤ a.createdAt))) := rfl
  rw [h1, List.mergeSort_singleton]

/-- C5 amended: `getAllListings` interprets the search parameter as a
case-insensitive REGULAR EXPRESSION, not a literal substring; when the
pattern does not compile the endpoint answers 500; when a supplied nonempty
search lies in the modeled pattern fragment (literal characters and the `.`
wildcard, which matches any non-line-terminator character — hence "."
over-matches relative to literal containment), the result is exactly the
`isApproved = true` listings satisfying the type filter (exact match unless
absent/empty or the sentinel "All"), the inclusive minPrice/maxPrice
bounds, and whose title or location matches the pattern at some position,
ordered newest-created-first. -/
theorem getAllListings_spec_amended (rxc : String → Option (String → Bool))
    (db : DB) (q : ListingQuery) (hrx : FragmentJsRegex rxc) :
    (∀ pat, q.search = some pat → pat ≠ "" → rxc pat = none →
      getAllListings rxc db q = .err 500 "Failed to fetch listings. Please try again.") ∧
    ((∀ pat, q.search = some pat → pat ≠ "" →
        ∃ tks, parseSimplePattern pat.data = some tks) →
      ∃ L, getAllListings rxc db q = .ok 200 L ∧
        (∀ l, l ∈ L ↔
          l ∈ db.listings.map Prod.snd ∧
          l.isApproved = true ∧
          (∀ t, q.type = some t → t ≠ "" → t ≠ "All" → l.type = t) ∧
          (∀ m, q.minPrice = some m → m ≤ l.price) ∧
          (∀ m, q.maxPrice = some m → l.price ≤ m) ∧
          (∀ pat tks, q.search = some pat → pat ≠ "" →
            parseSimplePattern pat.data = some tks →
            (rtest tks l.title.data = true ∨ rtest tks l.location.data = true))) ∧
        L.Pairwise (fun a b => b.createdAt ≤ a.createdAt)) := by
  constructor
  · intro pat hq hne hnone
    have hst : strTruthy q.search = true := by simp [strTruthy, hq, hne]
    have hst2 : strTruthy (some pat) = true := by simp [strTruthy, hne]
    simp [getAllListings, hst, hst2, hq, hnone]
  · intro hex
    rcases hq : q.search with _ | pat
    · have hst : strTruthy q.search = false := by simp [strTruthy, hq]
      refine ⟨((db.listings.map Prod.snd).filter (matchesQuery none q)).mergeSort
          (fun a b => decide (b.createdAt ≤ a.createdAt)),
        by simp [getAllListings, hst], ?_, mergeSort_byCreated_sorted _⟩
      intro l
      rw [List.mem_mergeSort, List.mem_filter, matchesQuery_iff]
      constructor
      · rintro ⟨h1, h2, h3, h4, h5, -⟩
        exact ⟨h1, h2, h3, h4, h5, fun pat tks hpq => nomatch hpq⟩
      · rintro ⟨h1, h2, h3, h4, h5, -⟩
        exact ⟨h1, h2, h3, h4, h5, fun f hf => nomatch hf⟩
    · by_cases hpe : pat = ""
      · subst hpe
        have hst : strTruthy q.search = false := by simp [strTruthy, hq]
        refine ⟨((db.listings.map Prod.snd).filter (matchesQuery none q)).mergeSort
            (fun a b => decide (b.createdAt ≤ a.createdAt)),
          by simp [getAllListings, hst], ?_, mergeSort_byCreated_sorted _⟩
        intro l
        rw [List.mem_mergeSort, List.mem_filter, matchesQuery_iff]
        constructor
        · rintro ⟨h1, h2, h3, h4, h5, -⟩
          refine ⟨h1, h2, h3, h4, h5, fun pat' tks hpq hne' => ?_⟩
          cases Option.some.inj hpq
          exact absurd rfl hne'
        · rintro ⟨h1, h2, h3, h4, h5, -⟩
          exact ⟨h1, h2, h3, h4, h5, fun f hf => nomatch hf⟩
      · obtain ⟨tks, htks⟩ := hex pat hq hpe
        obtain ⟨f, hf, hfs⟩ := hrx pat tks htks
        have hst : strTruthy q.search = true := by simp [strTruthy, hq, hpe]
        have hst2 : strTruthy (some pat) = true := by simp [strTruthy, hpe]
        refine ⟨((db.listings.map Prod.snd).filter (matchesQuery (some f) q)).mergeSort
            (fun a b => decide (b.createdAt ≤ a.createdAt)),
          by simp [getAllListings, hst, hst2, hq, hf], ?_, mergeSort_byCreated_sorted _⟩
        intro l
        rw [List.mem_mergeSort, List.mem_filter, matchesQuery_iff]
        constructor
        · rintro ⟨h1, h2, h3, h4, h5, h6⟩
          refine ⟨h1, h2, h3, h4, h5, fun pat' tks' hpq hne' htks' => ?_⟩
          cases Option.some.inj hpq
          rw [htks] at htks'
          cases Option.some.inj htks'
          rcases h6 f rfl with h7 | h7
          · exact Or.inl (by rw [← hfs]; exact h7)
          · exact Or.inr (by rw [← hfs]; exact h7)
        · rintro ⟨h1, h2, h3, h4, h5, h6⟩
          refine ⟨h1, h2, h3, h4, h5, fun f' hf' => ?_⟩
          cases Option.some.inj hf'
          rcases h6 pat tks rfl hpe htks with h7 | h7
          · exact Or.inl (by rw [hfs]; exact h7)
          · exact Or.inr (by rw [hfs]; exact h7)

/-- Witness for the amended C5 theorem: concretely, the non-compiling
pattern "(" makes the endpoint answer 500, and the fragment pattern "."
yields a 200 whose result contains the stored dot-free listing. -/
theorem getAllListings_spec_amended_witness :
    getAllListings jsRegexCompileModel cexListingDB
        { type := none, minPrice := none, maxPrice := none, search := some "(" }
      = .err 500 "Failed to fetch listings. Please try again." ∧
    (∃ L, getAllListings jsRegexCompileModel cexListingDB dotQuery = .ok 200 L ∧
      cexListing ∈ L) := by
  constructor
  · exact (getAllListings_spec_amended jsRegexCompileModel cexListingDB
      { type := none, minPrice := none, maxPrice := none, search := some "(" }
      jsRegexCompileModel_fragment).1 "(" rfl (by decide) rfl
  · have hex : ∀ pat, dotQuery.search = some pat → pat ≠ "" →
        ∃ tks, parseSimplePattern pat.data = some tks := by
      intro pat hpq hne
      have hp := Option.some.inj hpq
      subst hp
      exact ⟨[RTok.dot], rfl⟩
    obtain ⟨L, hL, hmem, -⟩ := (getAllListings_spec_amended jsRegexCompileModel
      cexListingDB dotQuery jsRegexCompileModel_fragment).2 hex
    refine ⟨L, hL, ?_⟩
    rw [hmem cexListing]
    refine ⟨by decide, rfl, ?_, ?_, ?_, ?_⟩
    · intro t ht
      exact Option.noConfusion ht
    · intro m hm
      exact Option.noConfusion hm
    · intro m hm
      exact Option.noConfusion hm
    · intro pat tks hpq hne htks
      cases Option.some.inj hpq
      cases Option.some.inj htks
      exact Or.inl rfl

end GharSathi
